import Mathlib

/-
Shallow embedding of the pgmg table-gateway layer.

The definitions below are translated from the repository sources:
  * src/common.py   — metadata model, identifier quoting, SQL rendering,
                      gateway operations (get_by, find_by, insert, save, delete);
  * src/query_test.py — the TestSQLHandle transaction/savepoint manager.

Python strings are modelled by Lean `String` (in this toolchain a `String`
wraps a `List Char`, so all string computations are executable and provable
by `decide`/`rfl`).  Fallible operations (the `raise` statements of the
source) are modelled by `Except String`; the `.ok` payload of a gateway
operation is the pair (rendered SQL text, positional argument arrays) that
the source hands to the database handle, so "zero statements issued" is the
`.error` branch, which carries no payload.
-/

namespace Pgmg

/-- Column metadata, from `common.ColumnMetadata` (src/common.py lines 16-27). -/
structure ColumnMetadata where
  column_name : String
  field_name : String
  sql_data_type : String
  is_array : Bool
deriving DecidableEq

/-- Table metadata, from `common.TableMetadata` (src/common.py lines 30-41).
Python's optional `set[str]` primary key is modelled as `Option (List String)`
(membership is the only operation the source performs on it). -/
structure TableMetadata where
  table_schema : String
  table_name : String
  columns : List ColumnMetadata
  primary_key : Option (List String)
deriving DecidableEq

/-- Default column used only to state `List.getD` equations. -/
def defaultColumn : ColumnMetadata := ⟨"", "", "", false⟩

/-- Python `str.replace('"', '""')` for the one-character pattern used by `_q`:
every double-quote character is doubled, all other characters are kept. -/
def escapeQuotes : List Char → List Char
  | [] => []
  | c :: cs => if c = '"' then '"' :: '"' :: escapeQuotes cs else c :: escapeQuotes cs

/-- Identifier quoting, from `common._q` (src/common.py lines 268-269):
`'"' + name.replace('"', '""') + '"'`. -/
def _q (name : String) : String := String.mk ('"' :: (escapeQuotes name.data ++ ['"']))

/-- Python `sep.join(tokens)`, used for `', '.join`, `' AND '.join` and
`self.newline.join` in src/common.py. -/
def pyJoin (sep : String) : List String → String
  | [] => ""
  | [s] => s
  | s :: s2 :: rest => s ++ sep ++ pyJoin sep (s2 :: rest)

/-- From `common._render_list` (src/common.py lines 272-273). -/
def _render_list (tokens : List String) : String := pyJoin ", " tokens

/-- From `common._render_selection_set` (src/common.py lines 260-261). -/
def _render_selection_set (cols : List ColumnMetadata) : String :=
  _render_list (cols.map (fun c => _q c.column_name))

/-- From `common._column_alias` (src/common.py lines 276-277). -/
def _column_alias (table_alias : String) (col : String) : String :=
  _q table_alias ++ "." ++ _q col

/-- From `common._render_aliased_selection_set` (src/common.py lines 264-265). -/
def _render_aliased_selection_set (table_alias : String) (cols : List ColumnMetadata) : String :=
  _render_list (cols.map (fun c => _column_alias table_alias c.column_name))

/-- From `common._render_unnested_selection` (src/common.py lines 252-257). -/
def _render_unnested_selection (cols : List ColumnMetadata) : String :=
  "SELECT DISTINCT ON (__k.*) __k.* AS __n FROM UNNEST("
    ++ _render_list (cols.enum.map (fun p => "$" ++ toString (p.1 + 1) ++ "::" ++ p.2.sql_data_type ++ "[]"))
    ++ ") AS __k(" ++ _render_selection_set cols ++ ")"

/-- From `common._render_tk_match` (src/common.py lines 280-283): an
`AND`-joined conjunction of per-column equalities `"t"."c" = "k"."c"`. -/
def _render_tk_match (t : String) (k : String) (columns : List ColumnMetadata) : String :=
  pyJoin " AND " (columns.map (fun c => _q t ++ "." ++ _q c.column_name ++ " = " ++ _q k ++ "." ++ _q c.column_name))

/-- Table reference, from `common.TableReference` (src/common.py lines 44-68).
The `aliasAttr` field models the instance attribute literally named `alias`
that the `alias` method assigns (shadowing the method itself); the source's
`__str__` only ever reads `table_alias`.  The unused `columns` list of the
source (never populated nor read by rendering) is omitted. -/
structure TableReference where
  table_schema : String
  table_name : String
  table_alias : Option String
  aliasAttr : Option String
deriving DecidableEq

/-- From `TableReference.alias` (src/common.py lines 58-61): `copy(self)`
followed by `alias_ref.alias = table_alias` — the copy's `alias` attribute is
set, `table_alias` is left untouched. -/
def TableReference.alias (t : TableReference) (table_alias : String) : TableReference :=
  ⟨t.table_schema, t.table_name, t.table_alias, some table_alias⟩

/-- From `TableReference.__str__` (src/common.py lines 63-68).  Python's
`if self.table_alias:` is truthiness: `None` and the empty string both skip
the `AS` clause. -/
def TableReference.toStr (t : TableReference) : String :=
  let schema_qualified_name := _q t.table_schema ++ "." ++ _q t.table_name
  match t.table_alias with
  | some a => if a.isEmpty then schema_qualified_name else schema_qualified_name ++ " AS " ++ _q a
  | none => schema_qualified_name

/-- Column reference, from `common.ColumnReference` (src/common.py lines 71-81). -/
structure ColumnReference where
  table_reference : TableReference
  column_name : String

/-- From `ColumnReference.__str__` (src/common.py lines 80-81). -/
def ColumnReference.toStr (c : ColumnReference) : String :=
  c.table_reference.toStr ++ "." ++ _q c.column_name

/-
Transaction/savepoint manager, from `query_test.TestSQLHandle`
(src/query_test.py lines 41-87).  The handle's observable state is its
nesting counter `tx_level` and the ordered log of SQL statements executed
through its connection; `conn.execute(stmt)` is modelled as appending `stmt`
to the log.  A `Tx` scope is identified by the `level` captured at creation;
`__aexit__`'s `isinstance(exc_value, Exception)` test is the `failed` flag.
-/

/-- Observable state of `TestSQLHandle`: the nesting counter and the log of
statements executed on the connection, in order. -/
structure TestSQLHandle where
  tx_level : Nat
  log : List String
deriving DecidableEq

/-- From `TestSQLHandle.transaction` (src/query_test.py lines 58-62): builds a
`Tx` carrying the current `tx_level`, then increments the counter.  Returns
the updated handle and the level captured by the new scope. -/
def transaction (h : TestSQLHandle) : TestSQLHandle × Nat :=
  (⟨h.tx_level + 1, h.log⟩, h.tx_level)

/-- Statement emitted by `Tx.__aenter__` (src/query_test.py lines 69-73). -/
def txEnterStmt (level : Nat) : String :=
  if level = 0 then "BEGIN TRANSACTION;" else "SAVEPOINT \"" ++ toString level ++ "\";"

/-- Statement emitted by `Tx.__aexit__` (src/query_test.py lines 75-86).  The
two nested-level strings are copied verbatim from the source, which writes
`f'ROLLBACK TO SAVEPOINT "{self.level}'` and `f'RELEASE SAVEPOINT "{self.level}'`
with no closing double quote and no semicolon. -/
def txExitStmt (level : Nat) (failed : Bool) : String :=
  if failed then
    (if level = 0 then "ROLLBACK;" else "ROLLBACK TO SAVEPOINT \"" ++ toString level)
  else
    (if level = 0 then "COMMIT;" else "RELEASE SAVEPOINT \"" ++ toString level)

/-- Entering a `Tx` scope: executes the enter statement.  `tx_level` is not
touched by `__aenter__`. -/
def txEnter (h : TestSQLHandle) (level : Nat) : TestSQLHandle :=
  ⟨h.tx_level, h.log ++ [txEnterStmt level]⟩

/-- Exiting a `Tx` scope: executes the exit statement.  Note that the source's
`__aexit__` never modifies `tx_level`. -/
def txExit (h : TestSQLHandle) (level : Nat) (failed : Bool) : TestSQLHandle :=
  ⟨h.tx_level, h.log ++ [txExitStmt level failed]⟩

/-- The nested scenario of the savepoint claims: from a fresh handle, open
scope A, open nested scope B, fail B, then fail A. -/
def scenarioNested : TestSQLHandle :=
  let h0 : TestSQLHandle := ⟨0, []⟩
  let pa := transaction h0
  let h1 := txEnter pa.1 pa.2
  let pb := transaction h1
  let h2 := txEnter pb.1 pb.2
  let h3 := txExit h2 pb.2 true
  txExit h3 pa.2 true

/-- Sequential scenario: open scope A, exit it successfully, then open a
second scope C on the same session. -/
def scenarioSequential : TestSQLHandle :=
  let h0 : TestSQLHandle := ⟨0, []⟩
  let pa := transaction h0
  let h1 := txEnter pa.1 pa.2
  let h2 := txExit h1 pa.2 false
  let pc := transaction h2
  txEnter pc.1 pc.2

/-
Gateway operations, from `common.TableGateway` (src/common.py lines 88-249).
Each operation is split into its three phases exactly as in the source:
SQL rendering, positional-argument marshalling (`zip(*keys)` respectively
`zip(*records)`), and result reassembly.  The composed operation returns
`Except String (sql, argument arrays)` — the statement the source dispatches
through the SQL handle — with `.error` for the source's `raise`.
-/

/-- Number of tuples produced by Python `zip(*ls)`: the minimum length over
the given lists (`0` when no list is given). -/
def pyMinLen (ls : List (List α)) : Nat :=
  match ls with
  | [] => 0
  | l :: rest => rest.foldl (fun acc x => min acc x.length) l.length

/-- Fuel-indexed worker for `pyZip`: take the heads of all lists, recurse on
the tails.  With fuel equal to the minimum length every list is non-empty at
every step, so `filterMap head?` is exactly "heads of all lists". -/
def pyZipGo : Nat → List (List α) → List (List α)
  | 0, _ => []
  | n + 1, ls => ls.filterMap List.head? :: pyZipGo n (ls.map List.tail)

/-- Python `zip(*ls)` (as a list of lists): truncates to the shortest input.
This is the `arguments = (list(arg_sec) for arg_sec in zip(*keys))`
marshalling of src/common.py lines 124, 154, 186 and 219. -/
def pyZip (ls : List (List α)) : List (List α) := pyZipGo (pyMinLen ls) ls

/-- The `matches` dict comprehension of `get_by`/`find_by`/`delete`
(src/common.py lines 113, 144, 238): the columns whose `field_name` is in the
filter, each paired with its index in `columns`, in column order (dict
insertion order). -/
def matchesOf (columns : List ColumnMetadata) (fields : List String) : List (ColumnMetadata × Nat) :=
  (columns.enum.filter (fun p => fields.contains p.2.field_name)).map (fun p => (p.2, p.1))

/-- SQL text rendered by `TableGateway.get_by` (src/common.py lines 119-123). -/
def getBySQL (meta : TableMetadata) (fields : List String) (nl : String) : String :=
  let matched := matchesOf meta.columns fields
  let mcols := matched.map Prod.fst
  let kcss := _render_selection_set mcols
  let tacss := _render_aliased_selection_set "__t" meta.columns
  let kacss := _render_aliased_selection_set "__k" mcols
  pyJoin nl [
    "WITH __k AS (" ++ _render_unnested_selection mcols ++ ")",
    "SELECT DISTINCT ON (" ++ kacss ++ ") " ++ tacss,
    "FROM __k JOIN " ++ _q meta.table_schema ++ "." ++ _q meta.table_name ++ " AS __t USING (" ++ kcss ++ ")"]

/-- SQL text rendered by `TableGateway.find_by` (src/common.py lines 149-153). -/
def findBySQL (meta : TableMetadata) (fields : List String) (nl : String) : String :=
  let matched := matchesOf meta.columns fields
  let mcols := matched.map Prod.fst
  let kcss := _render_selection_set mcols
  let tacss := _render_aliased_selection_set "__t" meta.columns
  pyJoin nl [
    "WITH __k AS (" ++ _render_unnested_selection mcols ++ ")",
    "SELECT " ++ tacss,
    "FROM __k LEFT JOIN " ++ _q meta.table_schema ++ "." ++ _q meta.table_name ++ " AS __t USING (" ++ kcss ++ ")"]

/-- SQL text rendered by `TableGateway.insert` (src/common.py lines 181-185). -/
def insertSQL (meta : TableMetadata) (nl : String) : String :=
  pyJoin nl [
    "WITH __v AS (" ++ _render_unnested_selection meta.columns ++ ")",
    "INSERT INTO " ++ _q meta.table_schema ++ "." ++ _q meta.table_name,
    "SELECT * FROM __v"]

/-- SQL text rendered by `TableGateway.save` past its primary-key guard
(src/common.py lines 205-218), including the source's adjacent-f-string
concatenation of the `ON CONFILICT ...` and `WHERE ...` pieces into one line
with no separating blank.  The source's `matches`/`setters` are Python sets;
they are modelled as column-ordered lists (in the concrete instances proved
below both sets are singletons, so set iteration order is immaterial). -/
def saveSQL (meta : TableMetadata) (nl : String) : String :=
  let pk := meta.primary_key.getD []
  let setters := meta.columns.filter (fun c => !(pk.contains c.field_name))
  let kcss := _render_selection_set (meta.columns.filter (fun c => pk.contains c.field_name))
  let tcss := _render_selection_set meta.columns
  let vacss := _render_aliased_selection_set "__v" meta.columns
  pyJoin nl [
    "WITH __v AS (" ++ _render_unnested_selection meta.columns ++ ")",
    "INSERT INTO " ++ _q meta.table_schema ++ "." ++ _q meta.table_name ++ " AS __t",
    "SELECT * FROM __v",
    "ON CONFILICT (" ++ kcss ++ ") DO UPDATE (" ++ tcss ++ ") = (" ++ vacss ++ ")"
      ++ "WHERE " ++ _render_tk_match "__t" "__v" setters]

/-- SQL text rendered by `TableGateway.delete` past its primary-key guard
(src/common.py lines 238-244). -/
def deleteSQL (meta : TableMetadata) (nl : String) : String :=
  let matched := matchesOf meta.columns (meta.primary_key.getD [])
  let mcols := matched.map Prod.fst
  pyJoin nl [
    "WITH __k AS (" ++ _render_unnested_selection mcols ++ ")",
    "DELETE FROM " ++ _q meta.table_schema ++ "." ++ _q meta.table_name ++ " AS __t",
    "USING __k WHERE " ++ _render_tk_match "__t" "__k" mcols]

/-- Python truthiness of the optional primary-key set: `not pk` holds for
`None` and for an empty set (src/common.py lines 200, 233). -/
def pkEmpty : Option (List String) → Bool
  | none => true
  | some l => l.isEmpty

/-- The message of the `raise Exception(...)` in `save`/`delete`
(src/common.py lines 201-204 and 234-237). -/
def noPkMsg (meta : TableMetadata) : String :=
  "Table " ++ meta.table_schema ++ "." ++ meta.table_name ++ " has no primary key"

/-- `TableGateway.get_by` up to dispatch (src/common.py lines 103-126): the
statement and argument arrays handed to `sql_handle.query`.  The source
performs no validation of any kind here. -/
def get_by (meta : TableMetadata) (fields : List String) (nl : String)
    (keys : List (List α)) : Except String (String × List (List α)) :=
  Except.ok (getBySQL meta fields nl, pyZip keys)

/-- `TableGateway.find_by` up to dispatch (src/common.py lines 136-156). -/
def find_by (meta : TableMetadata) (fields : List String) (nl : String)
    (keys : List (List α)) : Except String (String × List (List α)) :=
  Except.ok (findBySQL meta fields nl, pyZip keys)

/-- `TableGateway.insert` (src/common.py lines 172-188). -/
def insert (meta : TableMetadata) (nl : String)
    (records : List (List α)) : Except String (String × List (List α)) :=
  Except.ok (insertSQL meta nl, pyZip records)

/-- `TableGateway.save` (src/common.py lines 190-221): the primary-key guard
raises before any SQL text is constructed; otherwise the statement and the
zipped argument arrays are dispatched through `sql_handle.exec`. -/
def save (meta : TableMetadata) (nl : String)
    (records : List (List α)) : Except String (String × List (List α)) :=
  if pkEmpty meta.primary_key then Except.error (noPkMsg meta)
  else Except.ok (saveSQL meta nl, pyZip records)

/-- `TableGateway.delete` (src/common.py lines 223-249).  Its arguments are
built by `getattr(rec, col.column_name)`, so a record is modelled as an
attribute map `String → α`. -/
def delete (meta : TableMetadata) (nl : String)
    (records : List (String → α)) : Except String (String × List (List α)) :=
  if pkEmpty meta.primary_key then Except.error (noPkMsg meta)
  else
    Except.ok (deleteSQL meta nl,
      (matchesOf meta.columns (meta.primary_key.getD [])).map
        (fun m => records.map (fun rec => rec m.1.column_name)))

/-- Key extraction of `get_by`/`find_by` (src/common.py lines 130, 160):
`tuple(row[i] for i in matches.values())`, the row's values at the matched
column indices.  `row[i]` is modelled as `row.get? i` so the function is
total; an in-range index always yields `some`. -/
def extractKey (idxs : List Nat) (row : List α) : List (Option α) :=
  idxs.map (fun j => row.get? j)

/-- One step of the `key_objs[key] = obj` loop of `get_by` (src/common.py
lines 129-132): Python dict assignment, later rows overwrite earlier ones.
The dict is observed only through `[key] = obj` and `.get(key)`, so it is
modelled as a function. -/
def getByUpd [DecidableEq α] (ctor : List α → ρ) (idxs : List Nat)
    (m : List (Option α) → Option ρ) (row : List α) : List (Option α) → Option ρ :=
  fun k => if k = extractKey idxs row then some (ctor row) else m k

/-- Result reassembly of `get_by` (src/common.py lines 128-134): build the
dict from the rows, then answer each input key by dict lookup
(`key_objs.get(key)`), `None` when absent. -/
def getByAssemble [DecidableEq α] (ctor : List α → ρ) (idxs : List Nat)
    (rows keys : List (List α)) : List (Option ρ) :=
  let keyObjs := rows.foldl (getByUpd ctor idxs) (fun _ => none)
  keys.map (fun k => keyObjs (k.map some))

/-- One step of the accumulation loop of `find_by` (src/common.py lines
159-168): the row's record is appended to the list held for its extracted
key, a fresh list on first sight. -/
def findByUpd [DecidableEq α] (ctor : List α → ρ) (idxs : List Nat)
    (m : List (Option α) → Option (List ρ)) (row : List α) :
    List (Option α) → Option (List ρ) :=
  fun k => if k = extractKey idxs row then some ((m k).getD [] ++ [ctor row]) else m k

/-- Result reassembly of `find_by` (src/common.py lines 158-170): accumulate
rows into per-key lists, then answer each input key with its list, `[]` when
absent (`key_objs.get(key, [])`). -/
def findByAssemble [DecidableEq α] (ctor : List α → ρ) (idxs : List Nat)
    (rows keys : List (List α)) : List (List ρ) :=
  let keyObjs := rows.foldl (findByUpd ctor idxs) (fun _ => none)
  keys.map (fun k => (keyObjs (k.map some)).getD [])

/-- The example table of the spec (section 8): columns `(id: int, name: text)`,
primary key `{id}`. -/
def exMeta : TableMetadata :=
  ⟨"public", "t", [⟨"id", "id", "int4", false⟩, ⟨"name", "name", "text", false⟩], some ["id"]⟩

/-- A table whose metadata carries no primary key. -/
def exNoPk : TableMetadata :=
  ⟨"public", "t", [⟨"id", "id", "int4", false⟩], none⟩

/-- Concrete result rows for the reassembly witness (spec section 8 example,
with values rendered as strings): the rows for keys 2 and 1. -/
def wRows : List (List String) := [["2", "b"], ["1", "a"]]

/-- Concrete input keys for the reassembly witness: `[(2,), (3,), (1,)]`. -/
def wKeys : List (List String) := [["2"], ["3"], ["1"]]

/-
Helper lemmas.
-/

/-- Mapping over an enumeration is mapping over the index range. -/
theorem map_enumFrom_eq_range {α β : Type} (d : α) (F : Nat → α → β) :
    ∀ (l : List α) (n : Nat),
      (List.enumFrom n l).map (fun p => F p.1 p.2) =
        (List.range l.length).map (fun i => F (n + i) (l.getD i d))
  | [], _ => by simp
  | a :: l, n => by
    have ih := map_enumFrom_eq_range d F l (n + 1)
    have hfe : (fun i => F (n + 1 + i) (l.getD i d)) = (fun i => F (n + (i + 1)) (l.getD i d)) := by
      funext i
      rw [Nat.add_assoc, Nat.add_comm 1 i]
    simp only [List.enumFrom, List.map_cons, ih, List.length_cons, List.range_succ_eq_map,
      List.map_map, List.getD_cons_zero, Nat.add_zero, Function.comp]
    rw [hfe]
    simp [List.getD_cons_succ]

/-- `escapeQuotes` doubles exactly the double-quote characters. -/
theorem escapeQuotes_count : ∀ s : List Char, (escapeQuotes s).count '"' = 2 * s.count '"'
  | [] => rfl
  | c :: cs => by
    by_cases hc : c = '"'
    · simp [escapeQuotes, hc, List.count_cons, escapeQuotes_count cs]
      omega
    · simp [escapeQuotes, hc, List.count_cons, escapeQuotes_count cs]

/-- `escapeQuotes` preserves the non-quote characters in order. -/
theorem escapeQuotes_filter :
    ∀ s : List Char, (escapeQuotes s).filter (fun c => c != '"') = s.filter (fun c => c != '"')
  | [] => rfl
  | c :: cs => by
    by_cases hc : c = '"'
    · simp [escapeQuotes, hc, List.filter_cons, escapeQuotes_filter cs]
    · simp [escapeQuotes, hc, List.filter_cons, escapeQuotes_filter cs]

/-- `pyZipGo` produces exactly as many tuples as it is given fuel. -/
theorem pyZipGo_length {α : Type} : ∀ (n : Nat) (ls : List (List α)), (pyZipGo n ls).length = n
  | 0, _ => rfl
  | n + 1, ls => by simp [pyZipGo, pyZipGo_length n]

/-- Evaluating the `get_by` dict after the whole fold: the last row whose
extracted key equals the queried key wins; if none matches, the initial dict
answers. -/
theorem foldUpd_eval {α ρ : Type} [DecidableEq α] (ctor : List α → ρ) (idxs : List Nat) :
    ∀ (rows : List (List α)) (m : List (Option α) → Option ρ) (k : List (Option α)),
      (rows.foldl (getByUpd ctor idxs) m) k =
        match (rows.filter (fun r => decide (k = extractKey idxs r))).getLast? with
        | some r => some (ctor r)
        | none => m k
  | [], m, k => rfl
  | r :: rs, m, k => by
    have ih := foldUpd_eval ctor idxs rs (getByUpd ctor idxs m r) k
    rw [List.foldl_cons, ih]
    by_cases hk : k = extractKey idxs r
    · subst hk
      rcases hfilt : rs.filter (fun x => decide (extractKey idxs r = extractKey idxs x))
        with _ | ⟨x, xsl⟩
      · simp [hfilt, List.filter_cons, getByUpd]
      · rcases hgl : (x :: xsl).getLast? with _ | y
        · exact absurd (List.getLast?_eq_none_iff.mp hgl) (List.cons_ne_nil x xsl)
        · simp [hfilt, List.filter_cons, List.getLast?_cons_cons, hgl]
    · have hb : (decide (k = extractKey idxs r)) = false := decide_eq_false hk
      rcases hfilt : rs.filter (fun x => decide (k = extractKey idxs x)) with _ | ⟨x, xsl⟩
      · simp [hfilt, List.filter_cons, hb, getByUpd, hk]
      · rcases hgl : (x :: xsl).getLast? with _ | y
        · exact absurd (List.getLast?_eq_none_iff.mp hgl) (List.cons_ne_nil x xsl)
        · simp [hfilt, List.filter_cons, hb, hgl]

/-- Evaluating the `find_by` dict after the whole fold: the accumulated list
for a key is the initial list followed by the records of all matching rows in
row order. -/
theorem foldAppendUpd_eval {α ρ : Type} [DecidableEq α] (ctor : List α → ρ) (idxs : List Nat) :
    ∀ (rows : List (List α)) (m : List (Option α) → Option (List ρ)) (k : List (Option α)),
      ((rows.foldl (findByUpd ctor idxs) m) k).getD [] =
        (m k).getD [] ++ (rows.filter (fun r => decide (k = extractKey idxs r))).map ctor
  | [], m, k => by simp
  | r :: rs, m, k => by
    have ih := foldAppendUpd_eval ctor idxs rs (findByUpd ctor idxs m r) k
    rw [List.foldl_cons, ih]
    by_cases hk : k = extractKey idxs r
    · subst hk
      simp [List.filter_cons, findByUpd, List.append_assoc]
    · simp [List.filter_cons, findByUpd, hk]

/-- When the mapped images are pairwise distinct, at most one list element can
match a given image. -/
theorem length_filter_le_one_of_nodup_map {β γ : Type} [DecidableEq γ] {f : β → γ} :
    ∀ {l : List β}, (l.map f).Nodup → ∀ c : γ,
      (l.filter (fun r => decide (c = f r))).length ≤ 1
  | [], _, _ => by simp
  | a :: l, h, c => by
    rw [List.map_cons, List.nodup_cons] at h
    by_cases hc : c = f a
    · subst hc
      have hnil : l.filter (fun r => decide (f a = f r)) = [] := by
        rw [List.filter_eq_nil_iff]
        intro x hx hpx
        have hfx : f a = f x := by simpa using hpx
        exact h.1 (List.mem_map.mpr ⟨x, hx, hfx.symm⟩)
      simp [List.filter_cons, hnil]
    · have := length_filter_le_one_of_nodup_map h.2 c
      simpa [List.filter_cons, hc] using this

/-- A list with at most one element has equal head and last. -/
theorem getLast?_eq_head?_of_length_le_one {β : Type} :
    ∀ {l : List β}, l.length ≤ 1 → l.getLast? = l.head?
  | [], _ => rfl
  | [_], _ => rfl
  | _ :: _ :: _, h => by simp at h

/-- `find?` returns the head of the filtered list. -/
theorem find?_eq_head?_filter {β : Type} (p : β → Bool) :
    ∀ l : List β, l.find? p = (l.filter p).head?
  | [] => rfl
  | a :: l => by
    have ih := find?_eq_head?_filter p l
    by_cases hp : p a
    · rw [List.find?_cons_of_pos _ hp, List.filter_cons, if_pos hp]
      rfl
    · rw [List.find?_cons_of_neg _ hp, List.filter_cons, if_neg hp, ih]

/-- The `get_by` dict lookup under uniqueness of extracted keys is the unique
matching row. -/
theorem getByAssemble_key {α ρ : Type} [DecidableEq α] (ctor : List α → ρ) (idxs : List Nat)
    (rows : List (List α)) (q : List (Option α))
    (hnd : (rows.map (extractKey idxs)).Nodup) :
    (rows.foldl (getByUpd ctor idxs) (fun _ => none)) q =
      (rows.find? (fun r => decide (q = extractKey idxs r))).map ctor := by
  rw [foldUpd_eval, find?_eq_head?_filter,
    ← getLast?_eq_head?_of_length_le_one (length_filter_le_one_of_nodup_map hnd q)]
  rcases (rows.filter (fun r => decide (q = extractKey idxs r))).getLast? with _ | r <;> rfl

/-
Claim theorems.
-/

/-- C1: the claim reads save/upsert as rendering
`ON CONFLICT (key columns) DO UPDATE SET (setter columns) = (...)` with a
WHERE predicate restricted to rows where at least one setter column differs.
Evaluating the source's rendering at the failing input — the spec's example
table `public.t (id int4 primary key, name text)` — shows the code instead
emits the misspelled keyword `ON CONFILICT`, no `SET`, all columns (not just
the setters) as the update target list, a missing blank before `WHERE`, and a
WHERE predicate of setter EQUALITIES (`"__t"."name" = "__v"."name"`), i.e.
the update would fire exactly when nothing changed — the opposite of the
claimed only-when-different restriction (and invalid SQL besides). -/
theorem save_renders_malformed_upsert :
    saveSQL exMeta "\n" =
      "WITH __v AS (SELECT DISTINCT ON (__k.*) __k.* AS __n FROM UNNEST($1::int4[], $2::text[]) AS __k(\"id\", \"name\"))\nINSERT INTO \"public\".\"t\" AS __t\nSELECT * FROM __v\nON CONFILICT (\"id\") DO UPDATE (\"id\", \"name\") = (\"__v\".\"id\", \"__v\".\"name\")WHERE \"__t\".\"name\" = \"__v\".\"name\"" := by
  set_option maxRecDepth 8192 in rfl

/-- C2: from a fresh session (counter 0), opening scope A emits a BEGIN,
opening nested scope B emits `SAVEPOINT "1";`, failing B emits the rollback-to
statement for savepoint 1, and failing A afterwards emits plain `ROLLBACK;`
(not a ROLLBACK TO).  The branch structure matches the claim, but the source's
nested-failure f-string is truncated: it emits `ROLLBACK TO SAVEPOINT "1` with
no closing double quote and no semicolon (an unterminated quoted identifier),
where the claim — and the source's own `__aenter__` quoting — require
`ROLLBACK TO SAVEPOINT "1";`. -/
theorem savepoint_nesting_emission_log :
    scenarioNested.log =
      ["BEGIN TRANSACTION;", "SAVEPOINT \"1\";", "ROLLBACK TO SAVEPOINT \"1", "ROLLBACK;"] ∧
    scenarioNested.tx_level = 2 :=
  ⟨rfl, rfl⟩

/-- C3 (counterexample): with two key tuples of mismatched arities
`("a","b")` and `("c",)`, `get_by` (and likewise `insert`) raises no
validation error: it returns the dispatched statement with the argument
arrays silently truncated by `zip` to the shortest arity — a single array
`["a","c"]` (the `"b"` component is dropped) — refuting the claim that the
operation fails before dispatch. -/
theorem arity_mismatch_dispatched_not_rejected :
    get_by exMeta ["id"] "\n" [["a", "b"], ["c"]] =
      Except.ok (getBySQL exMeta ["id"] "\n", [["a", "c"]]) ∧
    insert exMeta "\n" [["a", "b"], ["c"]] =
      Except.ok (insertSQL exMeta "\n", [["a", "c"]]) :=
  ⟨rfl, rfl⟩

/-- C3 (amended): the gateway operations perform no arity validation at all —
they always dispatch, and the argument arrays are produced by the zip over
the supplied tuples, which truncates to the minimum tuple arity. -/
theorem gateway_never_validates_argument_arity {α : Type} (meta : TableMetadata)
    (fields : List String) (nl : String) (keys : List (List α)) :
    get_by meta fields nl keys = Except.ok (getBySQL meta fields nl, pyZip keys) ∧
    find_by meta fields nl keys = Except.ok (findBySQL meta fields nl, pyZip keys) ∧
    insert meta nl keys = Except.ok (insertSQL meta nl, pyZip keys) ∧
    (pyZip keys).length = pyMinLen keys :=
  ⟨rfl, rfl, rfl, pyZipGo_length _ _⟩

/-- C4: `get_by`'s reassembly returns exactly one slot per input key, in input
order, and — when each key matches at most one returned row (the extracted
row keys are pairwise distinct, `get_by`'s documented usage) — slot `i` holds
the record built from the row matching key `K[i]`, and `none` when no row
matches; repeated identical keys each independently receive this result, and
the characterization is independent of the order the rows were returned in. -/
theorem getBy_reassembly {α ρ : Type} [DecidableEq α] (ctor : List α → ρ) (idxs : List Nat)
    (rows keys : List (List α)) (i : Nat)
    (hnd : (rows.map (extractKey idxs)).Nodup) :
    (getByAssemble ctor idxs rows keys).length = keys.length ∧
    (getByAssemble ctor idxs rows keys)[i]? =
      (keys[i]?).map (fun k =>
        (rows.find? (fun r => decide (k.map some = extractKey idxs r))).map ctor) := by
  constructor
  · simp [getByAssemble]
  · simp only [getByAssemble]
    rw [List.getElem?_map]
    cases hki : keys[i]?
    · rfl
    · simp [getByAssemble_key ctor idxs rows _ hnd]

/-- Witness for C4, on the spec's section-8 example: keys `[(2,),(3,),(1,)]`
against rows for 2 and 1 give `[some (2,b), none, some (1,a)]`; slot 1 is
checked through the theorem. -/
theorem getBy_reassembly_witness :
    ((wRows.map (extractKey [0])).Nodup) ∧
    ((getByAssemble (fun r => r) [0] wRows wKeys).length = wKeys.length ∧
      (getByAssemble (fun r => r) [0] wRows wKeys)[1]? =
        (wKeys[1]?).map (fun k =>
          (wRows.find? (fun r => decide (k.map some = extractKey [0] r))).map (fun r => r))) :=
  ⟨by decide, getBy_reassembly (fun r => r) [0] wRows wKeys 1 (by decide)⟩

/-- C5: the claim says every scope exit decrements the session's nesting
counter.  The source's `__aexit__` never touches `tx_level`: exits leave the
counter unchanged (first conjunct), so after opening and successfully closing
one scope the counter is 1, not 0, and a freshly opened second scope emits
`SAVEPOINT "1";` instead of beginning a new transaction, ending with counter
2 after two sequential (non-nested) scopes. -/
theorem tx_level_never_decremented :
    (∀ (h : TestSQLHandle) (level : Nat) (failed : Bool),
      (txExit h level failed).tx_level = h.tx_level) ∧
    scenarioSequential.log = ["BEGIN TRANSACTION;", "COMMIT;", "SAVEPOINT \"1\";"] ∧
    scenarioSequential.tx_level = 2 :=
  ⟨fun _ _ _ => rfl, rfl, rfl⟩

/-- C6: `find_by`'s reassembly returns one slot per input key in input order;
slot `i` is the ordered list of the records of ALL rows matching key `K[i]`
(empty list — never `none`, never an error — when no row matches), with no
hypothesis needed; and the rendered query left-joins the key CTE `__k` to the
target table (`LEFT JOIN` occurs in the SQL text). -/
theorem findBy_reassembly_and_left_join {α ρ : Type} [DecidableEq α] (ctor : List α → ρ)
    (idxs : List Nat) (rows keys : List (List α)) (i : Nat)
    (meta : TableMetadata) (fields : List String) (nl : String) :
    (findByAssemble ctor idxs rows keys).length = keys.length ∧
    (findByAssemble ctor idxs rows keys)[i]? =
      (keys[i]?).map (fun k =>
        (rows.filter (fun r => decide (k.map some = extractKey idxs r))).map ctor) ∧
    ∃ a b : String, findBySQL meta fields nl = a ++ "LEFT JOIN" ++ b := by
  refine ⟨by simp [findByAssemble], ?_, ?_⟩
  · simp only [findByAssemble]
    rw [List.getElem?_map]
    cases hki : keys[i]?
    · rfl
    · simp [foldAppendUpd_eval ctor idxs rows (fun _ => none)]
  · refine ⟨"WITH __k AS (" ++ _render_unnested_selection ((matchesOf meta.columns fields).map Prod.fst) ++ ")"
        ++ nl ++ ("SELECT " ++ _render_aliased_selection_set "__t" meta.columns ++ nl ++ "FROM __k "),
      " " ++ _q meta.table_schema ++ "." ++ _q meta.table_name ++ " AS __t USING ("
        ++ _render_selection_set ((matchesOf meta.columns fields).map Prod.fst) ++ ")", ?_⟩
    simp only [findBySQL, pyJoin]
    rw [show ("FROM __k LEFT JOIN " : String) = "FROM __k " ++ "LEFT JOIN" ++ " " from rfl]
    simp only [String.append_assoc]

/-- C7: for every ordered column sequence, the unnesting renderer produces
exactly the claimed shape: the fixed `SELECT DISTINCT ON (__k.*) __k.* AS __n
FROM UNNEST(` prefix, then for each position `i` (in the given column order)
the bind placeholder `$(i+1)` cast to the i-th column's sql type followed by
`[]`, then `) AS __k(` and the quoted column names in the same order. -/
theorem render_unnested_selection_shape (cols : List ColumnMetadata) :
    _render_unnested_selection cols =
      "SELECT DISTINCT ON (__k.*) __k.* AS __n FROM UNNEST("
        ++ pyJoin ", " ((List.range cols.length).map
            (fun i => "$" ++ toString (i + 1) ++ "::" ++ (cols.getD i defaultColumn).sql_data_type ++ "[]"))
        ++ ") AS __k(" ++ pyJoin ", " (cols.map (fun c => _q c.column_name)) ++ ")" := by
  have h : (List.enumFrom 0 cols).map
      (fun p => "$" ++ toString (p.1 + 1) ++ "::" ++ p.2.sql_data_type ++ "[]") =
      (List.range cols.length).map
        (fun i => "$" ++ toString (i + 1) ++ "::" ++ (cols.getD i defaultColumn).sql_data_type ++ "[]") := by
    simpa using map_enumFrom_eq_range defaultColumn
      (fun i c => "$" ++ toString (i + 1) ++ "::" ++ c.sql_data_type ++ "[]") cols 0
  unfold _render_unnested_selection _render_selection_set _render_list
  rw [show cols.enum = List.enumFrom 0 cols from rfl, h]

/-- C8: invoking save/upsert or delete on metadata whose primary key is
`None` or the empty set fails immediately with the configuration error (the
source's `raise`), and — since the dispatched statement is the `.ok` payload
— zero statements are issued and no SQL text is built on this path. -/
theorem save_delete_require_primary_key {α : Type} (meta : TableMetadata) (nl : String)
    (records : List (List α)) (drecords : List (String → α))
    (hpk : meta.primary_key = none ∨ meta.primary_key = some []) :
    save meta nl records = Except.error (noPkMsg meta) ∧
    delete meta nl drecords = Except.error (noPkMsg meta) := by
  rcases hpk with h | h <;> simp [save, delete, pkEmpty, h]

/-- Witness for C8: a concrete key-less table, with both hypothesis and
conclusion discharged at that instance. -/
theorem save_delete_require_primary_key_witness :
    (exNoPk.primary_key = none ∨ exNoPk.primary_key = some []) ∧
    (save exNoPk "\n" ([["1"]] : List (List String)) = Except.error (noPkMsg exNoPk) ∧
      delete exNoPk "\n" ([fun _ => "1"] : List (String → String)) = Except.error (noPkMsg exNoPk)) :=
  ⟨Or.inl rfl, save_delete_require_primary_key exNoPk "\n" [["1"]] [fun _ => "1"] (Or.inl rfl)⟩

/-- C9: `_q` wraps any name in double quotes (first and last character `"`),
doubles exactly the embedded double-quote characters (the quote count of the
output is twice that of the input plus the two wrapping quotes — so a single
application never double-escapes) and preserves every other character in
order.  It is a total function, so it never throws on any input. -/
theorem quote_identifier_spec (name : String) :
    (_q name).data.count '"' = 2 * name.data.count '"' + 2 ∧
    (_q name).data.filter (fun c => c != '"') = name.data.filter (fun c => c != '"') ∧
    (_q name).data.head? = some '"' ∧
    (_q name).data.getLast? = some '"' := by
  refine ⟨?_, ?_, rfl, ?_⟩
  · show (('"' :: (escapeQuotes name.data ++ ['"'])).count '"') = _
    simp [List.count_cons, List.count_append, escapeQuotes_count]
  · show (('"' :: (escapeQuotes name.data ++ ['"'])).filter (fun c => c != '"')) = _
    simp [List.filter_cons, List.filter_append, escapeQuotes_filter]
  · show ('"' :: (escapeQuotes name.data ++ ['"'])).getLast? = some '"'
    rw [← List.cons_append, List.getLast?_concat]

/-- C10: `TableReference.alias` assigns the attribute named `alias` instead of
`table_alias`, so the rendered SQL of `t.alias(a)` equals the rendered SQL of
`t` for every table reference and every alias string: the requested alias
never reaches the output, and the fields rendering depends on are unchanged
(the original `t` itself is a value and is not modified). -/
theorem alias_does_not_change_rendering (t : TableReference) (a : String) :
    (t.alias a).toStr = t.toStr ∧
    (t.alias a).table_schema = t.table_schema ∧
    (t.alias a).table_name = t.table_name ∧
    (t.alias a).table_alias = t.table_alias :=
  ⟨rfl, rfl, rfl, rfl⟩

end Pgmg
